import Mathlib

/-!
Shallow embedding of `sample_space.py`: a hyperopt sample space of rocket
parameters (`get_sample_space`), the four default spaces built from it, and
the decoder `parse_args` that turns a sampled 22-element vector into a
dictionary of physically scaled values via the helper `_scale`.

Real numbers are modelled as `ℚ` (the claims are about exact arithmetic).
A Python exception (the `assert` statements in `_scale`, and the
`ZeroDivisionError` raised by `(radius * 0.0254) ** -2` when the base is
zero) is modelled by returning `none`.
-/

/-- A hyperopt parameter expression for one slot of the sample space: either a
concrete number, or one of the distribution descriptors the module uses
(`hp.uniform lo hi`, `offset + hp.randint n`, `hp.choice options`,
`hp.quniform lo hi step`), each carrying its hyperopt label. -/
inductive SpaceEntry where
  | fixed (x : ℚ)
  | uniform (label : String) (lo hi : ℚ)
  | randintOffset (label : String) (n : ℕ) (offset : ℚ)
  | choice (label : String) (options : List ℚ)
  | quniform (label : String) (lo hi step : ℚ)
deriving DecidableEq, Inhabited

/-- Models the Python idiom `v or d`: a provided value is an optional `ℚ`
(`none` = parameter omitted), and a provided `0` is falsy, so the default
descriptor `d` is used for it just as for `none`. -/
def orDefault (v : Option ℚ) (d : SpaceEntry) : SpaceEntry :=
  match v with
  | none => d
  | some x => if x = 0 then d else .fixed x

/-- Embedding of `get_sample_space` (src/sample_space.py lines 9-122): the two
always-fixed parameters `dry_mass` and `thrust_margin` followed by the twenty
learnable parameters, each either the caller's (truthy) value or its default
hyperopt descriptor.  Arguments are positional, in the source's order:
dry_mass, thrust_margin, radius, dry_com, nose_len, body_len, boat_len,
nose_shape, nose_tip_di, nose_power, fin_count, fin_root_chord, fin_span,
fin_tip_chord, fin_sweep, fin_thickness, fin_base_sep, fin_shape, fin_le_rad,
fin_le_len, fin_te_len, ch4_tube_radius. -/
def get_sample_space
    (dry_mass thrust_margin : ℚ)
    (radius dry_com nose_len body_len boat_len nose_shape nose_tip_di
      nose_power fin_count fin_root_chord fin_span fin_tip_chord fin_sweep
      fin_thickness fin_base_sep fin_shape fin_le_rad fin_le_len fin_te_len
      ch4_tube_radius : Option ℚ) : List SpaceEntry :=
  [ .fixed dry_mass,
    .fixed thrust_margin,
    orDefault radius (.uniform "radius" 2 12),
    orDefault dry_com (.uniform "dry_com" 0 1),
    orDefault nose_len (.uniform "nose_len" 2 30),
    orDefault body_len (.uniform "body_len" 1.5 4),
    orDefault boat_len (.uniform "boat_len" 0 10),
    orDefault nose_shape (.randintOffset "nose_shape" 7 1),
    orDefault nose_tip_di (.uniform "nose_tip_di" 0 2),
    orDefault nose_power (.uniform "nose_power" 0 0.99),
    orDefault fin_count (.choice "fin_count" [3, 4]),
    orDefault fin_root_chord (.uniform "fin_root_chord" 0 1),
    orDefault fin_span (.uniform "fin_span" 0 1),
    orDefault fin_tip_chord (.uniform "fin_tip_chord" 0 1),
    orDefault fin_sweep (.uniform "fin_sweep" 0 1),
    orDefault fin_thickness (.quniform "fin_thickness" 1 10 1),
    orDefault fin_base_sep (.uniform "fin_base_sep" 0 1),
    orDefault fin_shape (.randintOffset "fin_shape" 9 1),
    orDefault fin_le_rad (.uniform "fin_le_rad" 0.1 1),
    orDefault fin_le_len (.uniform "fin_le_len" 0.1 3),
    orDefault fin_te_len (.uniform "fin_te_len" 0.1 3),
    orDefault ch4_tube_radius (.quniform "ch4_tube_radius" 1 16 1) ]

/-- Embedding of the module-level `space_all` (all parameters learnable). -/
def space_all : List SpaceEntry :=
  get_sample_space 65 15
    none none none none none none none none none none
    none none none none none none none none none none

/-- Embedding of the module-level `space_most`
("unimportant" parameters fixed). -/
def space_most : List SpaceEntry :=
  get_sample_space 65 15
    none none none none none none none none none none
    none none none none none none
    (some 0.5) (some 1.5) (some 1.5) (some 8)

/-- Embedding of the module-level `space_few` (more parameters fixed). -/
def space_few : List SpaceEntry :=
  get_sample_space 65 15
    none none none none none none
    (some 0) (some 0.1) none none none
    none none (some 1) (some 0) none
    (some 0.5) (some 1.5) (some 1.5) (some 8)

/-- Embedding of the module-level `space_body`
(fin and nose parameters fixed). -/
def space_body : List SpaceEntry :=
  get_sample_space 65 15
    none none (some 15) none none
    (some 1) (some 0) (some 0) (some 4) (some 1)
    (some 1) (some 0.75) (some 0.33) (some 1) (some 0)
    (some 7) (some 0.5) (some 1.5) (some 1.5) (some 8)

/-- Embedding of `_scale` (src/sample_space.py lines 179-199): scale a value
in `[0, 1]` to the range `[min_, max_]`.  The two `assert` statements become
the `none` branch. -/
def _scale (in_ min_ max_ : ℚ) : Option ℚ :=
  if 0 ≤ in_ ∧ in_ ≤ 1 then
    if min_ ≤ max_ then
      some (in_ * (max_ - min_) + min_)
    else none
  else none

/-- Embedding of the local `tank_and_engine_len` formula of `parse_args`
(src/sample_space.py line 145):
`0.00690077 * ((radius * 0.0254) ** -2) * 39.3701 + 10`. -/
def tank_and_engine_len (radius : ℚ) : ℚ :=
  0.00690077 * ((radius * 0.0254) ^ 2)⁻¹ * 39.3701 + 10

/-- The dictionary returned by `parse_args`, one field per key; the three
conditionally-nulled keys hold `Option ℚ` (`none` = Python `None`). -/
structure ParsedArgs where
  dry_mass : ℚ
  thrust_margin : ℚ
  radius : ℚ
  dry_CoM : ℚ
  nose_len : ℚ
  body_len : ℚ
  boat_len : ℚ
  nose_shape : ℚ
  nose_tip_di : ℚ
  nose_power : ℚ
  fin_count : ℚ
  fin_root_chord : ℚ
  fin_span : ℚ
  fin_tip_chord : ℚ
  fin_sweep : ℚ
  fin_thickness : ℚ
  fin_base_sep : ℚ
  fin_shape : ℚ
  fin_le_rad : Option ℚ
  fin_le_len : Option ℚ
  fin_te_len : Option ℚ
  CH4_tube_radius : ℚ
deriving DecidableEq, Inhabited

/-- Embedding of `parse_args` (src/sample_space.py lines 125-176).  In Python
the whole call raises if `radius * 0.0254` is zero (`0.0 ** -2` is a
`ZeroDivisionError`) or if any `_scale` assertion fails; here that is `none`. -/
def parse_args (args : Fin 22 → ℚ) : Option ParsedArgs :=
  let radius := args 2
  let nose_len := args 4
  let body_len_frac := args 5
  if radius * 0.0254 = 0 then none else
  let T := tank_and_engine_len radius
  let body_len := body_len_frac * T
  (_scale (args 11) 2 ((body_len + nose_len) / 2)).bind fun fin_root_chord =>
  let fin_shape := args 17
  (_scale (args 3) (nose_len + body_len - T / 2)
      (nose_len + body_len - T / 3)).bind fun dry_CoM =>
  (_scale (args 12) 2 ((body_len + nose_len) / 2)).bind fun fin_span =>
  (_scale (args 13) 0 fin_root_chord).bind fun fin_tip_chord =>
  (_scale (args 14) 0 fin_root_chord).bind fun fin_sweep =>
  (_scale (args 16) fin_root_chord ((body_len + nose_len) / 2)).bind
    fun fin_base_sep =>
  some
    { dry_mass := args 0
      thrust_margin := args 1
      radius := radius
      dry_CoM := dry_CoM
      nose_len := nose_len
      body_len := body_len
      boat_len := args 6
      nose_shape := args 7
      nose_tip_di := args 8
      nose_power := args 9
      fin_count := args 10
      fin_root_chord := fin_root_chord
      fin_span := fin_span
      fin_tip_chord := fin_tip_chord
      fin_sweep := fin_sweep
      fin_thickness := args 15 / 8
      fin_base_sep := fin_base_sep
      fin_shape := fin_shape
      fin_le_rad :=
        if fin_shape = 1 ∨ fin_shape = 3 ∨ fin_shape = 4 ∨ fin_shape = 5 ∨
            fin_shape = 6 ∨ fin_shape = 7 then some (args 18) else none
      fin_le_len :=
        if fin_shape = 1 ∨ fin_shape = 3 ∨ fin_shape = 6 then some (args 19)
        else none
      fin_te_len := if fin_shape = 1 then some (args 20) else none
      CH4_tube_radius := args 21 / 8 }

/-- Whether a slot entry is a concrete (pinned) number rather than a
distribution descriptor. -/
def SpaceEntry.isFixed : SpaceEntry → Bool
  | .fixed _ => true
  | _ => false

/-- The hyperopt label of a descriptor entry (`none` for a pinned number). -/
def SpaceEntry.label : SpaceEntry → Option String
  | .fixed _ => none
  | .uniform l _ _ => some l
  | .randintOffset l _ _ => some l
  | .choice l _ => some l
  | .quniform l _ _ _ => some l

/-- Number of learnable slots (indices 2..21) of a sample space that are
pinned to concrete scalars. -/
def pinnedCount (s : List SpaceEntry) : ℕ :=
  ((s.drop 2).filter SpaceEntry.isFixed).length

/-- The canonical table of default descriptors for the twenty learnable
slots, in slot order (indices 2..21 of the space). -/
def defaults : List SpaceEntry :=
  [ .uniform "radius" 2 12,
    .uniform "dry_com" 0 1,
    .uniform "nose_len" 2 30,
    .uniform "body_len" 1.5 4,
    .uniform "boat_len" 0 10,
    .randintOffset "nose_shape" 7 1,
    .uniform "nose_tip_di" 0 2,
    .uniform "nose_power" 0 0.99,
    .choice "fin_count" [3, 4],
    .uniform "fin_root_chord" 0 1,
    .uniform "fin_span" 0 1,
    .uniform "fin_tip_chord" 0 1,
    .uniform "fin_sweep" 0 1,
    .quniform "fin_thickness" 1 10 1,
    .uniform "fin_base_sep" 0 1,
    .randintOffset "fin_shape" 9 1,
    .uniform "fin_le_rad" 0.1 1,
    .uniform "fin_le_len" 0.1 3,
    .uniform "fin_te_len" 0.1 3,
    .quniform "ch4_tube_radius" 1 16 1 ]

/-- `get_sample_space` with its twenty learnable arguments packaged as one
function from slot position (0..19) to optional value, so that theorems can
quantify over which slot is pinned. -/
def buildSpace (dm tm : ℚ) (v : Fin 20 → Option ℚ) : List SpaceEntry :=
  get_sample_space dm tm (v 0) (v 1) (v 2) (v 3) (v 4) (v 5) (v 6) (v 7)
    (v 8) (v 9) (v 10) (v 11) (v 12) (v 13) (v 14) (v 15) (v 16) (v 17)
    (v 18) (v 19)

/-- The name of each of the 22 slots, in the canonical order. -/
def slotName : Fin 22 → String := fun i =>
  match i.val with
  | 0 => "dry_mass"
  | 1 => "thrust_margin"
  | 2 => "radius"
  | 3 => "dry_com"
  | 4 => "nose_len"
  | 5 => "body_len"
  | 6 => "boat_len"
  | 7 => "nose_shape"
  | 8 => "nose_tip_di"
  | 9 => "nose_power"
  | 10 => "fin_count"
  | 11 => "fin_root_chord"
  | 12 => "fin_span"
  | 13 => "fin_tip_chord"
  | 14 => "fin_sweep"
  | 15 => "fin_thickness"
  | 16 => "fin_base_sep"
  | 17 => "fin_shape"
  | 18 => "fin_le_rad"
  | 19 => "fin_le_len"
  | 20 => "fin_te_len"
  | _ => "ch4_tube_radius"

/-- A space entry belongs to the slot named `n` when it is a pinned scalar or
a descriptor labelled `n`. -/
def entryFor (n : String) (e : SpaceEntry) : Prop :=
  SpaceEntry.label e = none ∨ SpaceEntry.label e = some n

/-- The value `_scale in_ min_ max_` returns when its assertions hold:
`in_ * (max_ - min_) + min_`. -/
def scaleVal (in_ min_ max_ : ℚ) : ℚ :=
  in_ * (max_ - min_) + min_

/-- Closed form of the dictionary `parse_args` returns when neither the
zero-radius division nor a `_scale` assertion fires; each `_scale` call is
replaced by its success value `scaleVal`.  Derived from `parse_args`, used to
state its success and inversion lemmas. -/
def parsedOf (args : Fin 22 → ℚ) : ParsedArgs :=
  let radius := args 2
  let nose_len := args 4
  let T := tank_and_engine_len radius
  let body_len := args 5 * T
  let fin_root_chord := scaleVal (args 11) 2 ((body_len + nose_len) / 2)
  let fin_shape := args 17
  { dry_mass := args 0
    thrust_margin := args 1
    radius := radius
    dry_CoM := scaleVal (args 3) (nose_len + body_len - T / 2)
      (nose_len + body_len - T / 3)
    nose_len := nose_len
    body_len := body_len
    boat_len := args 6
    nose_shape := args 7
    nose_tip_di := args 8
    nose_power := args 9
    fin_count := args 10
    fin_root_chord := fin_root_chord
    fin_span := scaleVal (args 12) 2 ((body_len + nose_len) / 2)
    fin_tip_chord := scaleVal (args 13) 0 fin_root_chord
    fin_sweep := scaleVal (args 14) 0 fin_root_chord
    fin_thickness := args 15 / 8
    fin_base_sep := scaleVal (args 16) fin_root_chord ((body_len + nose_len) / 2)
    fin_shape := fin_shape
    fin_le_rad :=
      if fin_shape = 1 ∨ fin_shape = 3 ∨ fin_shape = 4 ∨ fin_shape = 5 ∨
          fin_shape = 6 ∨ fin_shape = 7 then some (args 18) else none
    fin_le_len :=
      if fin_shape = 1 ∨ fin_shape = 3 ∨ fin_shape = 6 then some (args 19)
      else none
    fin_te_len := if fin_shape = 1 then some (args 20) else none
    CH4_tube_radius := args 21 / 8 }

/-- A concrete sampled vector inside all declared bounds, used as the input
of the witness theorems (fin_shape 1, fin_thickness and ch4_tube_radius 8). -/
def exArgs : Fin 22 → ℚ := fun i =>
  match i.val with
  | 0 => 65
  | 1 => 15
  | 2 => 10
  | 3 => 1/2
  | 4 => 20
  | 5 => 2
  | 6 => 0
  | 7 => 1
  | 8 => 1
  | 9 => 1/2
  | 10 => 3
  | 11 => 1/2
  | 12 => 1/2
  | 13 => 1/2
  | 14 => 1/2
  | 15 => 8
  | 16 => 1/2
  | 17 => 1
  | 18 => 1/2
  | 19 => 3/2
  | 20 => 3/2
  | _ => 8

/-- When both assertions hold, `_scale` succeeds with `scaleVal`. -/
theorem scale_eq_some {v lo hi : ℚ} (h0 : 0 ≤ v) (h1 : v ≤ 1) (hlh : lo ≤ hi) :
    _scale v lo hi = some (scaleVal v lo hi) := by
  unfold _scale scaleVal
  rw [if_pos ⟨h0, h1⟩, if_pos hlh]

/-- A successful `_scale` call implies its assertions held and returned
`scaleVal`. -/
theorem scale_some_elim {v lo hi y : ℚ} (h : _scale v lo hi = some y) :
    0 ≤ v ∧ v ≤ 1 ∧ lo ≤ hi ∧ y = scaleVal v lo hi := by
  unfold _scale at h
  split at h
  · split at h
    · rename_i h01 hlh
      exact ⟨h01.1, h01.2, hlh, (Option.some.injEq _ _ ▸ h).symm⟩
    · cases h
  · cases h

/-- Success lemma: when the radius is nonzero and every `_scale` precondition
holds, `parse_args` returns the closed-form record `parsedOf`. -/
theorem parse_args_eq_some (args : Fin 22 → ℚ)
    (hr : args 2 ≠ 0)
    (h11a : 0 ≤ args 11) (h11b : args 11 ≤ 1)
    (hM : 2 ≤ (args 5 * tank_and_engine_len (args 2) + args 4) / 2)
    (h3a : 0 ≤ args 3) (h3b : args 3 ≤ 1)
    (hcom : args 4 + args 5 * tank_and_engine_len (args 2)
        - tank_and_engine_len (args 2) / 2
        ≤ args 4 + args 5 * tank_and_engine_len (args 2)
          - tank_and_engine_len (args 2) / 3)
    (h12a : 0 ≤ args 12) (h12b : args 12 ≤ 1)
    (h13a : 0 ≤ args 13) (h13b : args 13 ≤ 1)
    (hfrc0 : 0 ≤ scaleVal (args 11) 2
        ((args 5 * tank_and_engine_len (args 2) + args 4) / 2))
    (h14a : 0 ≤ args 14) (h14b : args 14 ≤ 1)
    (h16a : 0 ≤ args 16) (h16b : args 16 ≤ 1)
    (hfrcM : scaleVal (args 11) 2
        ((args 5 * tank_and_engine_len (args 2) + args 4) / 2)
        ≤ (args 5 * tank_and_engine_len (args 2) + args 4) / 2) :
    parse_args args = some (parsedOf args) := by
  have hz : ¬(args 2 * 0.0254 = 0) := by
    intro h
    rcases mul_eq_zero.mp h with h | h
    · exact hr h
    · norm_num at h
  simp only [parse_args, parsedOf, if_neg hz,
    scale_eq_some h11a h11b hM,
    scale_eq_some h3a h3b hcom,
    scale_eq_some h12a h12b hM,
    scale_eq_some h13a h13b hfrc0,
    scale_eq_some h14a h14b hfrc0,
    scale_eq_some h16a h16b hfrcM,
    Option.some_bind]

/-- Inversion: any successful `parse_args` output is the closed-form record. -/
theorem parse_args_some_inv {args : Fin 22 → ℚ} {d : ParsedArgs}
    (h : parse_args args = some d) : d = parsedOf args := by
  simp only [parse_args] at h
  split at h
  · exact absurd h (by simp)
  · rw [Option.bind_eq_some] at h
    obtain ⟨frc, hfrc, h⟩ := h
    rw [Option.bind_eq_some] at h
    obtain ⟨dcm, hdcm, h⟩ := h
    rw [Option.bind_eq_some] at h
    obtain ⟨fsp, hfsp, h⟩ := h
    rw [Option.bind_eq_some] at h
    obtain ⟨ftc, hftc, h⟩ := h
    rw [Option.bind_eq_some] at h
    obtain ⟨fsw, hfsw, h⟩ := h
    rw [Option.bind_eq_some] at h
    obtain ⟨fbs, hfbs, h⟩ := h
    obtain ⟨_, _, _, rfl⟩ := scale_some_elim hfrc
    obtain ⟨_, _, _, rfl⟩ := scale_some_elim hdcm
    obtain ⟨_, _, _, rfl⟩ := scale_some_elim hfsp
    obtain ⟨_, _, _, rfl⟩ := scale_some_elim hftc
    obtain ⟨_, _, _, rfl⟩ := scale_some_elim hfsw
    obtain ⟨_, _, _, rfl⟩ := scale_some_elim hfbs
    cases h
    rfl

/-- Entry 2 of the example vector. -/
theorem exArgs_2 : exArgs 2 = 10 := rfl

/-- Entry 3 of the example vector. -/
theorem exArgs_3 : exArgs 3 = 1/2 := rfl

/-- Entry 4 of the example vector. -/
theorem exArgs_4 : exArgs 4 = 20 := rfl

/-- Entry 5 of the example vector. -/
theorem exArgs_5 : exArgs 5 = 2 := rfl

/-- Entry 11 of the example vector. -/
theorem exArgs_11 : exArgs 11 = 1/2 := rfl

/-- Entry 12 of the example vector. -/
theorem exArgs_12 : exArgs 12 = 1/2 := rfl

/-- Entry 13 of the example vector. -/
theorem exArgs_13 : exArgs 13 = 1/2 := rfl

/-- Entry 14 of the example vector. -/
theorem exArgs_14 : exArgs 14 = 1/2 := rfl

/-- Entry 16 of the example vector. -/
theorem exArgs_16 : exArgs 16 = 1/2 := rfl

/-- Decoding the example vector succeeds with the closed-form record. -/
theorem exArgs_parse : parse_args exArgs = some (parsedOf exArgs) := by
  apply parse_args_eq_some exArgs <;>
    norm_num [exArgs_2, exArgs_3, exArgs_4, exArgs_5, exArgs_11, exArgs_12,
      exArgs_13, exArgs_14, exArgs_16, tank_and_engine_len, scaleVal]

/-- Decoding the example vector succeeds. -/
theorem exArgs_isSome : (parse_args exArgs).isSome := by
  rw [exArgs_parse]
  rfl

/-- A truthy provided value replaces the default descriptor. -/
theorem orDefault_some_ne {x : ℚ} (hx : x ≠ 0) (d : SpaceEntry) :
    orDefault (some x) d = .fixed x := by
  simp [orDefault, hx]

/-- Learnable slot `k` of the built space (list position `k + 2`) is the
caller's optional value resolved against the canonical default table. -/
theorem buildSpace_getD (dm tm : ℚ) (v : Fin 20 → Option ℚ) (k : Fin 20) :
    (buildSpace dm tm v).getD (k.val + 2) (.fixed 0)
      = orDefault (v k) (defaults.getD k.val (.fixed 0)) := by
  fin_cases k <;> rfl

/-- `orDefault` always yields either a pinned scalar or the default
descriptor, so the entry stays at its slot's name. -/
theorem entryFor_orDefault {n : String} (v : Option ℚ) {d : SpaceEntry}
    (hd : SpaceEntry.label d = some n) : entryFor n (orDefault v d) := by
  cases v with
  | none => exact Or.inr hd
  | some x =>
    by_cases hx : x = 0
    · simp only [orDefault, if_pos hx]
      exact Or.inr hd
    · simp only [orDefault, if_neg hx]
      exact Or.inl rfl

/-- C1: for every 22-element input vector the decoder computes
`tank_and_engine_len = 0.00690077 * ((radius * 0.0254)^-2) * 39.3701 + 10`
from the radius at index 2, sets `body_len` to the index-5 value times
`tank_and_engine_len`, and sets `dry_CoM` to the index-3 value scaled between
`nose_len + body_len - tank_and_engine_len/2` and
`nose_len + body_len - tank_and_engine_len/3` (with `nose_len` the index-4
value). -/
theorem C1_decoder (args : Fin 22 → ℚ) (h : (parse_args args).isSome) :
    tank_and_engine_len (args 2)
      = 0.00690077 * ((args 2 * 0.0254) ^ 2)⁻¹ * 39.3701 + 10 ∧
    (parse_args args).map ParsedArgs.body_len
      = some (args 5 * tank_and_engine_len (args 2)) ∧
    (parse_args args).map ParsedArgs.dry_CoM
      = some (scaleVal (args 3)
          (args 4 + args 5 * tank_and_engine_len (args 2)
            - tank_and_engine_len (args 2) / 2)
          (args 4 + args 5 * tank_and_engine_len (args 2)
            - tank_and_engine_len (args 2) / 3)) := by
  obtain ⟨d, hd⟩ := Option.isSome_iff_exists.mp h
  rw [hd, parse_args_some_inv hd]
  exact ⟨rfl, rfl, rfl⟩

/-- Witness for C1 at the concrete example vector. -/
theorem C1_witness :
    tank_and_engine_len (exArgs 2)
      = 0.00690077 * ((exArgs 2 * 0.0254) ^ 2)⁻¹ * 39.3701 + 10 ∧
    (parse_args exArgs).map ParsedArgs.body_len
      = some (exArgs 5 * tank_and_engine_len (exArgs 2)) ∧
    (parse_args exArgs).map ParsedArgs.dry_CoM
      = some (scaleVal (exArgs 3)
          (exArgs 4 + exArgs 5 * tank_and_engine_len (exArgs 2)
            - tank_and_engine_len (exArgs 2) / 2)
          (exArgs 4 + exArgs 5 * tank_and_engine_len (exArgs 2)
            - tank_and_engine_len (exArgs 2) / 3)) :=
  C1_decoder exArgs exArgs_isSome

/-- C2: for `0 ≤ v ≤ 1` and `lo ≤ hi`, `scale(v, lo, hi)` succeeds with
`v*(hi-lo)+lo`, which lies in `[lo, hi]`, and `scale(0,lo,hi) = lo`,
`scale(1,lo,hi) = hi` in exact arithmetic. -/
theorem C2_scale (v lo hi : ℚ) (h0 : 0 ≤ v) (h1 : v ≤ 1) (hlh : lo ≤ hi) :
    _scale v lo hi = some (v * (hi - lo) + lo) ∧
    lo ≤ v * (hi - lo) + lo ∧ v * (hi - lo) + lo ≤ hi ∧
    _scale 0 lo hi = some lo ∧ _scale 1 lo hi = some hi := by
  refine ⟨scale_eq_some h0 h1 hlh, ?_, ?_, ?_, ?_⟩
  · nlinarith
  · nlinarith
  · rw [scale_eq_some le_rfl zero_le_one hlh]
    simp [scaleVal]
  · rw [scale_eq_some zero_le_one le_rfl hlh]
    simp [scaleVal]

/-- Witness for C2 at `v = 1/2`, `lo = 0`, `hi = 1`. -/
theorem C2_witness :
    _scale (1/2) 0 1 = some ((1/2) * ((1:ℚ) - 0) + 0) ∧
    (0:ℚ) ≤ (1/2) * ((1:ℚ) - 0) + 0 ∧ (1/2) * ((1:ℚ) - 0) + 0 ≤ 1 ∧
    _scale 0 0 1 = some 0 ∧ _scale 1 0 1 = some 1 :=
  C2_scale (1/2) 0 1 (by norm_num) (by norm_num) (by norm_num)

/-- C3: a learnable slot given a truthy value `x` is pinned to exactly `x`;
an omitted slot carries its default descriptor from the canonical table, and
the all-omitted space is exactly the two fixed scalars followed by the
canonical table. -/
theorem C3_fix_vs_default (dm tm : ℚ) (v : Fin 20 → Option ℚ) (k j : Fin 20)
    (x : ℚ) (hk : v k = some x) (hx : x ≠ 0) (hj : v j = none) :
    (buildSpace dm tm v).getD (k.val + 2) (.fixed 0) = .fixed x ∧
    (buildSpace dm tm v).getD (j.val + 2) (.fixed 0)
      = defaults.getD j.val (.fixed 0) ∧
    buildSpace 65 15 (fun _ => none) = .fixed 65 :: .fixed 15 :: defaults := by
  refine ⟨?_, ?_, rfl⟩
  · rw [buildSpace_getD, hk, orDefault_some_ne hx]
  · rw [buildSpace_getD, hj]
    rfl

/-- Witness for C3: pin slot 3 (`body_len`) to 5 and leave slot 0 (`radius`)
unset. -/
theorem C3_witness :
    (buildSpace 65 15 (fun i => if i = 3 then some 5 else none)).getD
        ((3 : Fin 20).val + 2) (.fixed 0) = .fixed 5 ∧
    (buildSpace 65 15 (fun i => if i = 3 then some 5 else none)).getD
        ((0 : Fin 20).val + 2) (.fixed 0)
      = defaults.getD (0 : Fin 20).val (.fixed 0) ∧
    buildSpace 65 15 (fun _ => none) = .fixed 65 :: .fixed 15 :: defaults :=
  C3_fix_vs_default 65 15 (fun i => if i = 3 then some 5 else none) 3 0 5
    rfl (by norm_num) rfl

/-- C4: a falsy value (0, or omission) for a learnable slot is treated
exactly as not provided: the space equals the one built with that slot unset,
the entry is the slot's default descriptor, and no default is a pinned
scalar. -/
theorem C4_falsy (dm tm : ℚ) (v : Fin 20 → Option ℚ) (k : Fin 20)
    (hk : v k = some 0) :
    buildSpace dm tm v = buildSpace dm tm (Function.update v k none) ∧
    (buildSpace dm tm v).getD (k.val + 2) (.fixed 0)
      = defaults.getD k.val (.fixed 0) ∧
    defaults.all (fun e => !e.isFixed) = true := by
  refine ⟨?_, ?_, rfl⟩
  · fin_cases k <;>
      simp_all [buildSpace, get_sample_space, Function.update, orDefault]
  · rw [buildSpace_getD, hk]
    simp [orDefault]

/-- Witness for C4: supply 0 for slot 0 (`radius`). -/
theorem C4_witness :
    buildSpace 65 15 (fun _ => some 0)
      = buildSpace 65 15 (Function.update (fun _ => some 0) 0 none) ∧
    (buildSpace 65 15 (fun _ => some 0)).getD ((0 : Fin 20).val + 2) (.fixed 0)
      = defaults.getD (0 : Fin 20).val (.fixed 0) ∧
    defaults.all (fun e => !e.isFixed) = true :=
  C4_falsy 65 15 (fun _ => some 0) 0 rfl

/-- C5 counterexample: the claimed pinned counts fail on the code;
`space_few` does not pin 8 learnable slots and `space_body` does not pin 15
(passing 0 for `nose_tip_di`, `nose_power` or `fin_base_sep` is falsy and
leaves the descriptor in place). -/
theorem C5_counterexample :
    pinnedCount space_few ≠ 8 ∧ pinnedCount space_body ≠ 15 := by
  constructor <;>
    norm_num [pinnedCount, space_few, space_body, get_sample_space, orDefault,
      SpaceEntry.isFixed]

/-- C5 amended: the preset spaces pin 0, 4, 6 and 13 learnable slots
respectively. -/
theorem C5_amended :
    pinnedCount space_all = 0 ∧ pinnedCount space_most = 4 ∧
    pinnedCount space_few = 6 ∧ pinnedCount space_body = 13 := by
  refine ⟨rfl, ?_, ?_, ?_⟩ <;>
    norm_num [pinnedCount, space_most, space_few, space_body,
      get_sample_space, orDefault, SpaceEntry.isFixed]

/-- C6: in the decoder's output, `fin_le_rad` is the index-18 value when
`fin_shape` (index 17) is in {1,3,4,5,6,7} and null otherwise; `fin_le_len`
is the index-19 value when `fin_shape` is in {1,3,6} and null otherwise;
`fin_te_len` is the index-20 value when `fin_shape` is 1 and null
otherwise. -/
theorem C6_nulling (args : Fin 22 → ℚ) (h : (parse_args args).isSome) :
    (parse_args args).map ParsedArgs.fin_le_rad
      = some (if args 17 = 1 ∨ args 17 = 3 ∨ args 17 = 4 ∨ args 17 = 5 ∨
          args 17 = 6 ∨ args 17 = 7 then some (args 18) else none) ∧
    (parse_args args).map ParsedArgs.fin_le_len
      = some (if args 17 = 1 ∨ args 17 = 3 ∨ args 17 = 6
          then some (args 19) else none) ∧
    (parse_args args).map ParsedArgs.fin_te_len
      = some (if args 17 = 1 then some (args 20) else none) := by
  obtain ⟨d, hd⟩ := Option.isSome_iff_exists.mp h
  rw [hd, parse_args_some_inv hd]
  exact ⟨rfl, rfl, rfl⟩

/-- Witness for C6 at the concrete example vector (fin_shape 1). -/
theorem C6_witness :
    (parse_args exArgs).map ParsedArgs.fin_le_rad
      = some (if exArgs 17 = 1 ∨ exArgs 17 = 3 ∨ exArgs 17 = 4 ∨
          exArgs 17 = 5 ∨ exArgs 17 = 6 ∨ exArgs 17 = 7
          then some (exArgs 18) else none) ∧
    (parse_args exArgs).map ParsedArgs.fin_le_len
      = some (if exArgs 17 = 1 ∨ exArgs 17 = 3 ∨ exArgs 17 = 6
          then some (exArgs 19) else none) ∧
    (parse_args exArgs).map ParsedArgs.fin_te_len
      = some (if exArgs 17 = 1 then some (exArgs 20) else none) :=
  C6_nulling exArgs exArgs_isSome

/-- C7: decoding any vector whose index-2 value (radius) is 0 fails (the
Python `0.0 ** -2` raises), modelled by `parse_args` returning `none`
rather than a dictionary. -/
theorem C7_zero_radius (args : Fin 22 → ℚ) (h : args 2 = 0) :
    parse_args args = none := by
  simp [parse_args, h]

/-- Witness for C7 at the all-zero vector. -/
theorem C7_witness : parse_args (fun _ => 0) = none :=
  C7_zero_radius (fun _ => 0) rfl

/-- C8: the decoder's `fin_thickness` is the index-15 value divided by 8 and
`CH4_tube_radius` is the index-21 value divided by 8; an input of 8 yields
exactly 1. -/
theorem C8_units (args : Fin 22 → ℚ) (h : (parse_args args).isSome) :
    (parse_args args).map ParsedArgs.fin_thickness = some (args 15 / 8) ∧
    (parse_args args).map ParsedArgs.CH4_tube_radius = some (args 21 / 8) ∧
    (args 15 = 8 → (parse_args args).map ParsedArgs.fin_thickness = some 1) ∧
    (args 21 = 8 → (parse_args args).map ParsedArgs.CH4_tube_radius = some 1)
    := by
  obtain ⟨d, hd⟩ := Option.isSome_iff_exists.mp h
  rw [hd, parse_args_some_inv hd]
  refine ⟨rfl, rfl, ?_, ?_⟩ <;> intro h8 <;> simp [parsedOf, h8]

/-- Witness for C8 at the concrete example vector (indices 15 and 21 both
hold 8). -/
theorem C8_witness :
    (parse_args exArgs).map ParsedArgs.fin_thickness = some (exArgs 15 / 8) ∧
    (parse_args exArgs).map ParsedArgs.CH4_tube_radius = some (exArgs 21 / 8) ∧
    (exArgs 15 = 8 →
      (parse_args exArgs).map ParsedArgs.fin_thickness = some 1) ∧
    (exArgs 21 = 8 →
      (parse_args exArgs).map ParsedArgs.CH4_tube_radius = some 1) :=
  C8_units exArgs exArgs_isSome

/-- C9: for every configuration, the built space has exactly 22 entries and
entry `i` is a pinned scalar or a descriptor labelled with the canonical name
of slot `i`; the order never changes. -/
theorem C9_order (dm tm : ℚ) (v : Fin 20 → Option ℚ) :
    (buildSpace dm tm v).length = 22 ∧
    ∀ i : Fin 22,
      entryFor (slotName i) ((buildSpace dm tm v).getD i.val (.fixed 0)) := by
  refine ⟨rfl, ?_⟩
  intro i
  fin_cases i <;>
    first
      | exact Or.inl rfl
      | exact entryFor_orDefault _ rfl

/-- C10: on any vector inside the declared sampling bounds the decoder
completes with no assertion failure: the tank-and-engine length is positive,
the body length exceeds 15, the fin-root-chord upper bound is at least its
2-inch minimum, the `dry_CoM` bounds are ordered, and the fin-root chord
never exceeds `(body_len + nose_len) / 2`. -/
theorem C10_bounds (args : Fin 22 → ℚ)
    (hr : 2 ≤ args 2 ∧ args 2 ≤ 12)
    (hn : 2 ≤ args 4 ∧ args 4 ≤ 30)
    (hb : 1.5 ≤ args 5 ∧ args 5 ≤ 4)
    (h3 : 0 ≤ args 3 ∧ args 3 ≤ 1)
    (h11 : 0 ≤ args 11 ∧ args 11 ≤ 1)
    (h12 : 0 ≤ args 12 ∧ args 12 ≤ 1)
    (h13 : 0 ≤ args 13 ∧ args 13 ≤ 1)
    (h14 : 0 ≤ args 14 ∧ args 14 ≤ 1)
    (h16 : 0 ≤ args 16 ∧ args 16 ≤ 1) :
    (parse_args args).isSome ∧
    0 < tank_and_engine_len (args 2) ∧
    15 < args 5 * tank_and_engine_len (args 2) ∧
    2 ≤ (args 5 * tank_and_engine_len (args 2) + args 4) / 2 ∧
    (args 4 + args 5 * tank_and_engine_len (args 2)
        - tank_and_engine_len (args 2) / 2
      ≤ args 4 + args 5 * tank_and_engine_len (args 2)
        - tank_and_engine_len (args 2) / 3) ∧
    scaleVal (args 11) 2 ((args 5 * tank_and_engine_len (args 2) + args 4) / 2)
      ≤ (args 5 * tank_and_engine_len (args 2) + args 4) / 2 := by
  have hT : 10 < tank_and_engine_len (args 2) := by
    have h1 : 0 < args 2 * 0.0254 :=
      mul_pos (by linarith [hr.1]) (by norm_num)
    have h2 : 0 < ((args 2 * 0.0254) ^ 2)⁻¹ := inv_pos.mpr (pow_pos h1 2)
    have h4 : 0 < 0.00690077 * ((args 2 * 0.0254) ^ 2)⁻¹ * 39.3701 :=
      mul_pos (mul_pos (by norm_num) h2) (by norm_num)
    unfold tank_and_engine_len
    linarith
  have hB : 15 < args 5 * tank_and_engine_len (args 2) := by
    nlinarith [hb.1, hT,
      mul_nonneg (by linarith [hb.1] : (0:ℚ) ≤ args 5 - 1.5)
        (by linarith : (0:ℚ) ≤ tank_and_engine_len (args 2) - 10)]
  have hM : 2 ≤ (args 5 * tank_and_engine_len (args 2) + args 4) / 2 := by
    linarith [hn.1]
  have hcom : args 4 + args 5 * tank_and_engine_len (args 2)
      - tank_and_engine_len (args 2) / 2
      ≤ args 4 + args 5 * tank_and_engine_len (args 2)
        - tank_and_engine_len (args 2) / 3 := by linarith
  have hfrc0 : 0 ≤ scaleVal (args 11) 2
      ((args 5 * tank_and_engine_len (args 2) + args 4) / 2) := by
    unfold scaleVal
    nlinarith [mul_nonneg h11.1
      (by linarith :
        (0:ℚ) ≤ (args 5 * tank_and_engine_len (args 2) + args 4) / 2 - 2)]
  have hfrcM : scaleVal (args 11) 2
      ((args 5 * tank_and_engine_len (args 2) + args 4) / 2)
      ≤ (args 5 * tank_and_engine_len (args 2) + args 4) / 2 := by
    unfold scaleVal
    nlinarith [mul_nonneg (by linarith [h11.2] : (0:ℚ) ≤ 1 - args 11)
      (by linarith :
        (0:ℚ) ≤ (args 5 * tank_and_engine_len (args 2) + args 4) / 2 - 2)]
  refine ⟨?_, by linarith, hB, hM, hcom, hfrcM⟩
  rw [parse_args_eq_some args (by linarith [hr.1]) h11.1 h11.2 hM h3.1 h3.2
    hcom h12.1 h12.2 h13.1 h13.2 hfrc0 h14.1 h14.2 h16.1 h16.2 hfrcM]
  rfl

/-- Witness for C10 at the concrete example vector. -/
theorem C10_witness :
    (parse_args exArgs).isSome ∧
    0 < tank_and_engine_len (exArgs 2) ∧
    15 < exArgs 5 * tank_and_engine_len (exArgs 2) ∧
    2 ≤ (exArgs 5 * tank_and_engine_len (exArgs 2) + exArgs 4) / 2 ∧
    (exArgs 4 + exArgs 5 * tank_and_engine_len (exArgs 2)
        - tank_and_engine_len (exArgs 2) / 2
      ≤ exArgs 4 + exArgs 5 * tank_and_engine_len (exArgs 2)
        - tank_and_engine_len (exArgs 2) / 3) ∧
    scaleVal (exArgs 11) 2
        ((exArgs 5 * tank_and_engine_len (exArgs 2) + exArgs 4) / 2)
      ≤ (exArgs 5 * tank_and_engine_len (exArgs 2) + exArgs 4) / 2 :=
  C10_bounds exArgs
    (by norm_num [exArgs_2]) (by norm_num [exArgs_4]) (by norm_num [exArgs_5])
    (by norm_num [exArgs_3]) (by norm_num [exArgs_11]) (by norm_num [exArgs_12])
    (by norm_num [exArgs_13]) (by norm_num [exArgs_14]) (by norm_num [exArgs_16])
